import Mathlib

/-!
Verification development for the ProjectCyan research-agent repository.

The first half embeds `app/agent/graph.py` (the research-cycle state
machine): Python strings are modelled as `List Char`, the LangGraph
`ResearchState` TypedDict as a structure, and each graph node as the
function the node computes composed with the `operator.add` reducer on
the `messages` channel.  The second half embeds
`app/trading-engine/backtester.py` and the failure surface of
`app/trading-engine/features.py` / `data.py`.
-/

/-! ### Python string primitives (modelled over `List Char`) -/

/-- Python strings are modelled as lists of characters so that every
operation reduces in the kernel. -/
abbrev PyStr := List Char

/-- Does `pat` occur at the head of `s`?  (Helper for substring search.) -/
def startsWithL : PyStr → PyStr → Bool
  | [], _ => true
  | _ :: _, [] => false
  | a :: as, b :: bs => a == b && startsWithL as bs

/-- Python `pat in s`: does `pat` occur as a contiguous substring of `s`? -/
def pyContains (pat : PyStr) : PyStr → Bool
  | [] => startsWithL pat []
  | c :: cs => startsWithL pat (c :: cs) || pyContains pat cs

/-- Fuel-indexed worker for `pySplit`; the fuel is the length of the
remaining input, which bounds the recursion. -/
def pySplitGo (sep : PyStr) : Nat → PyStr → PyStr → List PyStr
  | _, [], acc => [acc.reverse]
  | 0, s, acc => [acc.reverse ++ s]
  | fuel + 1, c :: cs, acc =>
    if startsWithL sep (c :: cs) then
      acc.reverse :: pySplitGo sep fuel (List.drop sep.length (c :: cs)) []
    else
      pySplitGo sep fuel cs (c :: acc)

/-- Python `s.split(sep)` for a non-empty separator: left-to-right,
non-overlapping occurrences of `sep` cut `s` into pieces. -/
def pySplit (sep s : PyStr) : List PyStr :=
  pySplitGo sep s.length s []

/-- Python `s.strip()`: remove leading and trailing whitespace. -/
def pyStrip (s : PyStr) : PyStr :=
  ((s.dropWhile Char.isWhitespace).reverse.dropWhile Char.isWhitespace).reverse

/-! ### State schema of the research graph (`graph.py`, `ResearchState`) -/

/-- One conversation turn.  `content` is the textual payload
(`message.content`); `tool_calls` records the pending tool invocations
carried by the turn (`message.tool_calls`), with only their presence and
count mattering to the graph logic, so each call is kept as its name. -/
structure Msg where
  content : PyStr
  tool_calls : List PyStr
deriving Repr, DecidableEq

/-- The `ResearchState` TypedDict of `graph.py`.  `messages` is annotated
with the `operator.add` reducer in the source, so each node's returned
`messages` value is appended to the existing history by the graph
runtime; the node embeddings below model that merged effect.
`should_continue` is `Option Bool` because the routing function reads it
with `state.get("should_continue", True)`, which tolerates a missing
key. -/
structure ResearchState where
  messages : List Msg
  cycle_id : PyStr
  cycle_count : Nat
  features_ruled_in : List PyStr
  features_ruled_out : List PyStr
  promoted_strategies : List PyStr
  current_hypothesis : PyStr
  last_backtest_result : Option PyStr
  should_continue : Option Bool
deriving Repr, DecidableEq

/-! ### Node definitions (`graph.py`) -/

/-- `orchestrator_node`: invokes the oracle and returns
`{**state, "messages": [response], "cycle_count": state["cycle_count"] + 1}`.
The oracle's reply is an input `response` here (the LLM call is an
external collaborator); with the `operator.add` reducer the merged state
appends `response` to the history. -/
def orchestrator_node (response : Msg) (s : ResearchState) : ResearchState :=
  { s with
    messages := s.messages ++ [response]
    cycle_count := s.cycle_count + 1 }

/-- `tool_node`: executes pending tool calls through `ToolNode` and
returns `{**state, "messages": result["messages"]}`.  The tool results
are an input here (tool execution is external); the reducer appends them
to the history.  No other field is touched. -/
def tool_node (results : List Msg) (s : ResearchState) : ResearchState :=
  { s with messages := s.messages ++ results }

/-- Python `list(set(old + new))`: membership-wise union of two lists.
The source's `set` makes the order unspecified; `dedup` of the
concatenation is membership-equivalent. -/
def py_set_union (old new : List PyStr) : List PyStr :=
  (old ++ new).dedup

/-- `content.split(marker)[1]` guarded by `marker in content`: `none`
when the marker is absent, otherwise the text between the first and
second occurrence of the marker (or to the end of the string). -/
def marker_tail (marker content : PyStr) : Option PyStr :=
  if pyContains marker content then
    some ((pySplit marker content).getD 1 [])
  else
    none

/-- `tail.split("\n")[0]`: the rest of the marker's line. -/
def first_line (tail : PyStr) : PyStr :=
  (pySplit [Char.ofNat 10] tail).headD []

/-- `[f.strip() for f in line.split(",") if f.strip()]`. -/
def parse_feature_list (line : PyStr) : List PyStr :=
  ((pySplit [','] line).map pyStrip).filter (fun f => f ≠ [])

/-- `update_state_from_messages`: parses the latest message's content for
the directive markers and folds them into the state.  The read of
`state["messages"][-1]` raises `IndexError` on an empty history, which is
the single failure point; it is modelled by the `Option` result.  The
`"PROMOTE"` branch of the source is `pass` (a TODO), so it has no
effect.  The returned dict carries `messages` unchanged, which the
`operator.add` reducer then appends to the existing history, duplicating
it in the merged state. -/
def update_state_from_messages (s : ResearchState) : Option ResearchState :=
  match s.messages.getLast? with
  | none => none
  | some last =>
    let content := last.content
    let s1 :=
      match marker_tail "RULED IN:".data content with
      | some tail =>
        { s with features_ruled_in :=
            py_set_union s.features_ruled_in (parse_feature_list (first_line tail)) }
      | none => s
    let s2 :=
      match marker_tail "RULED OUT:".data content with
      | some tail =>
        { s1 with features_ruled_out :=
            py_set_union s.features_ruled_out (parse_feature_list (first_line tail)) }
      | none => s1
    let s3 :=
      match marker_tail "NEXT HYPOTHESIS:".data content with
      | some tail => { s2 with current_hypothesis := pyStrip (first_line tail) }
      | none => s2
    some { s3 with messages := s.messages ++ s.messages }

/-- `should_continue_research`: the routing function run after each
orchestrator step.  It returns the edge keys of the source
(`"tools"`, `"end"`, `"continue"`), which `build_research_graph` maps to
the `TOOLS`, `DONE` and `UPDATING` destinations respectively.  Reading
`state["messages"][-1]` on an empty history raises, modelled by the
`Option` result. -/
def should_continue_research (s : ResearchState) : Option String :=
  match s.messages.getLast? with
  | none => none
  | some last =>
    if last.tool_calls ≠ [] then some "tools"
    else if s.cycle_count ≥ 10 then some "end"
    else if s.should_continue.getD true then some "continue"
    else some "end"

/-- The initial state built by `run_research_loop`.  The fresh UUID is an
input (it is generated effectfully in the source). -/
def initial_research_state (uuid : PyStr) (initial_hypothesis : PyStr) : ResearchState :=
  { messages := []
    cycle_id := uuid
    cycle_count := 0
    features_ruled_in := []
    features_ruled_out := []
    promoted_strategies := []
    current_hypothesis := initial_hypothesis
    last_backtest_result := none
    should_continue := some true }

/-! ### Helper lemmas about `update_state_from_messages` -/

/-- The state-extractor node never touches `cycle_count`, `cycle_id`,
`promoted_strategies`, `should_continue` or `last_backtest_result`. -/
theorem update_untouched_fields (s t : ResearchState)
    (h : update_state_from_messages s = some t) :
    t.cycle_count = s.cycle_count
    ∧ t.cycle_id = s.cycle_id
    ∧ t.promoted_strategies = s.promoted_strategies
    ∧ t.should_continue = s.should_continue
    ∧ t.last_backtest_result = s.last_backtest_result := by
  unfold update_state_from_messages at h
  cases hg : s.messages.getLast? with
  | none => rw [hg] at h; simp at h
  | some last =>
    rw [hg] at h
    simp only [Option.some.injEq] at h
    subst h
    rcases marker_tail "RULED IN:".data last.content with _ | tailA <;>
    rcases marker_tail "RULED OUT:".data last.content with _ | tailB <;>
    rcases marker_tail "NEXT HYPOTHESIS:".data last.content with _ | tailC <;>
      simp

/-- Membership in the ruled-in set after extraction: the old elements
together with the parsed payload of the `RULED IN:` marker line. -/
theorem update_ruled_in_mem (s t : ResearchState) (last : Msg)
    (hg : s.messages.getLast? = some last)
    (h : update_state_from_messages s = some t) (x : PyStr) :
    x ∈ t.features_ruled_in ↔
      x ∈ s.features_ruled_in ∨
      (∃ tail, marker_tail "RULED IN:".data last.content = some tail
        ∧ x ∈ parse_feature_list (first_line tail)) := by
  unfold update_state_from_messages at h
  rw [hg] at h
  simp only [Option.some.injEq] at h
  subst h
  rcases hA : marker_tail "RULED IN:".data last.content with _ | tailA <;>
  rcases hB : marker_tail "RULED OUT:".data last.content with _ | tailB <;>
  rcases hC : marker_tail "NEXT HYPOTHESIS:".data last.content with _ | tailC <;>
    simp [py_set_union, List.mem_dedup]

/-- Membership in the ruled-out set after extraction: the old elements
together with the parsed payload of the `RULED OUT:` marker line. -/
theorem update_ruled_out_mem (s t : ResearchState) (last : Msg)
    (hg : s.messages.getLast? = some last)
    (h : update_state_from_messages s = some t) (x : PyStr) :
    x ∈ t.features_ruled_out ↔
      x ∈ s.features_ruled_out ∨
      (∃ tail, marker_tail "RULED OUT:".data last.content = some tail
        ∧ x ∈ parse_feature_list (first_line tail)) := by
  unfold update_state_from_messages at h
  rw [hg] at h
  simp only [Option.some.injEq] at h
  subst h
  rcases hA : marker_tail "RULED IN:".data last.content with _ | tailA <;>
  rcases hB : marker_tail "RULED OUT:".data last.content with _ | tailB <;>
  rcases hC : marker_tail "NEXT HYPOTHESIS:".data last.content with _ | tailC <;>
    simp [py_set_union, List.mem_dedup]

/-! ### Claim C3 — routing priority after an ORCHESTRATING step -/

/-- C3: after an ORCHESTRATING step (so the history is non-empty and ends
with the oracle's latest turn), `should_continue_research` evaluates in
strict priority order: pending tool calls route to `"tools"` (the TOOLS
node) regardless of `cycle_count` or `should_continue`; else a
`cycle_count` at the ceiling 10 routes to `"end"` (DONE) even when
`should_continue` is true; else `should_continue = false` routes to
`"end"`; otherwise the result is `"continue"` (the UPDATING node). -/
theorem C3_routing_priority (s : ResearchState) (last : Msg)
    (hg : s.messages.getLast? = some last) :
    (last.tool_calls ≠ [] → should_continue_research s = some "tools")
    ∧ (last.tool_calls = [] → 10 ≤ s.cycle_count →
        should_continue_research s = some "end")
    ∧ (last.tool_calls = [] → s.cycle_count < 10 →
        s.should_continue.getD true = false →
        should_continue_research s = some "end")
    ∧ (last.tool_calls = [] → s.cycle_count < 10 →
        s.should_continue.getD true = true →
        should_continue_research s = some "continue") := by
  unfold should_continue_research
  rw [hg]
  refine ⟨fun h1 => ?_, fun h1 h2 => ?_, fun h1 h2 h3 => ?_, fun h1 h2 h3 => ?_⟩
  · simp [h1]
  · simp [h1, h2]
  · simp [h1, Nat.not_le.mpr h2, h3]
  · simp [h1, Nat.not_le.mpr h2, h3]

/-- Witness for C3 at concrete states: a turn with a pending tool call
routes to `"tools"` even at the cycle ceiling, and a plain turn at the
ceiling routes to `"end"` despite `should_continue = true`. -/
theorem C3_routing_priority_witness :
    should_continue_research
      { initial_research_state [] [] with
        messages := [⟨[], ["run_backtest".data]⟩], cycle_count := 10 } = some "tools"
    ∧ should_continue_research
      { initial_research_state [] [] with
        messages := [⟨"done".data, []⟩], cycle_count := 10,
        should_continue := some true } = some "end" :=
  ⟨(C3_routing_priority _ ⟨[], ["run_backtest".data]⟩ (by decide)).1 (by decide),
   (C3_routing_priority _ ⟨"done".data, []⟩ (by decide)).2.1 (by decide) (by decide)⟩

/-! ### Claim C6 — `cycle_count` bookkeeping -/

/-- C6: `cycle_count` starts at 0 in the initial state, is incremented by
exactly 1 by each ORCHESTRATING entry (whatever oracle response comes
back, hence independent of how many tool calls follow), and is left
unchanged by the TOOLS and UPDATING nodes, so it never decreases. -/
theorem C6_cycle_count_discipline (uuid hyp : PyStr) (response : Msg)
    (results : List Msg) (s t : ResearchState)
    (h : update_state_from_messages s = some t) :
    (initial_research_state uuid hyp).cycle_count = 0
    ∧ (orchestrator_node response s).cycle_count = s.cycle_count + 1
    ∧ (tool_node results s).cycle_count = s.cycle_count
    ∧ t.cycle_count = s.cycle_count :=
  ⟨rfl, rfl, rfl, (update_untouched_fields s t h).1⟩

/-- A concrete state used to instantiate the graph-node theorems: the
history holds one plain oracle turn. -/
def sample_state : ResearchState :=
  { initial_research_state "cycle-1".data [] with
    messages := [⟨"no directives in this turn".data, []⟩] }

/-- The result of running the state extractor on `sample_state`: no
marker is present, so only the history is (re-)appended by the reducer. -/
def sample_state_updated : ResearchState :=
  { sample_state with messages := sample_state.messages ++ sample_state.messages }

/-- Witness for C6 at concrete inputs. -/
theorem C6_cycle_count_discipline_witness :
    (initial_research_state [] []).cycle_count = 0
    ∧ (orchestrator_node ⟨[], []⟩ sample_state).cycle_count = sample_state.cycle_count + 1
    ∧ (tool_node [] sample_state).cycle_count = sample_state.cycle_count
    ∧ sample_state_updated.cycle_count = sample_state.cycle_count :=
  C6_cycle_count_discipline [] [] ⟨[], []⟩ [] sample_state sample_state_updated (by decide)

/-! ### Claim C5 — ruled-in / ruled-out conflict -/

/-- A state whose latest oracle turn rules the same feature both in and
out. -/
def conflict_state : ResearchState :=
  { initial_research_state "cycle-c".data [] with
    messages := [⟨"RULED IN: alpha\nRULED OUT: alpha".data, []⟩] }

/-- Counterexample to C5: after the UPDATING step on `conflict_state`,
the feature `alpha` is a member of both `features_ruled_in` and
`features_ruled_out`, so their intersection is not empty and no
ruled-out-wins resolution happens. -/
theorem C5_conflict_counterexample :
    ∃ t, update_state_from_messages conflict_state = some t
      ∧ "alpha".data ∈ t.features_ruled_in
      ∧ "alpha".data ∈ t.features_ruled_out := by
  refine ⟨{ conflict_state with
    features_ruled_in := ["alpha".data]
    features_ruled_out := ["alpha".data]
    messages := conflict_state.messages ++ conflict_state.messages }, ?_, ?_, ?_⟩ <;> decide

/-- C5 (amended): the extractor unions each marker's payload into its own
set independently and applies no conflict resolution, so after a cycle a
feature is ruled in (resp. out) exactly when it was before or appears in
the corresponding marker line — the same identifier may end up in both
sets. -/
theorem C5_amended_independent_unions (s t : ResearchState) (last : Msg)
    (hg : s.messages.getLast? = some last)
    (h : update_state_from_messages s = some t) (x : PyStr) :
    (x ∈ t.features_ruled_in ↔
      x ∈ s.features_ruled_in ∨
      (∃ tail, marker_tail "RULED IN:".data last.content = some tail
        ∧ x ∈ parse_feature_list (first_line tail)))
    ∧ (x ∈ t.features_ruled_out ↔
      x ∈ s.features_ruled_out ∨
      (∃ tail, marker_tail "RULED OUT:".data last.content = some tail
        ∧ x ∈ parse_feature_list (first_line tail))) :=
  ⟨update_ruled_in_mem s t last hg h x, update_ruled_out_mem s t last hg h x⟩

/-- A state whose latest turn only rules one feature in. -/
def ruled_in_state : ResearchState :=
  { initial_research_state "cycle-b".data [] with
    messages := [⟨"RULED IN: beta".data, []⟩] }

/-- Witness for the amended C5 at a concrete input: `beta` enters the
ruled-in set of `ruled_in_state` because the marker line mentions it. -/
theorem C5_amended_independent_unions_witness :
    "beta".data ∈
      ({ ruled_in_state with
          features_ruled_in := ["beta".data]
          messages := ruled_in_state.messages ++ ruled_in_state.messages
        } : ResearchState).features_ruled_in :=
  (C5_amended_independent_unions ruled_in_state _ ⟨"RULED IN: beta".data, []⟩
    (by decide) (by decide) "beta".data).1.mpr
    (Or.inr ⟨" beta".data, by decide, by decide⟩)

/-! ### Claim C7 — promotion markers -/

/-- A state whose latest oracle turn carries a promotion marker naming a
strategy. -/
def promote_state : ResearchState :=
  { initial_research_state "cycle-p".data [] with
    messages := [⟨"PROMOTE strategy alpha-1".data, []⟩] }

/-- C7: the `"PROMOTE"` branch of `update_state_from_messages` is `pass`
(an unimplemented TODO), so even on a turn whose content contains a
promotion marker naming a strategy the extractor leaves
`promoted_strategies` empty — the code never adds the strategy name. -/
theorem C7_promote_marker_ignored :
    pyContains "PROMOTE".data "PROMOTE strategy alpha-1".data = true
    ∧ (update_state_from_messages promote_state).map
        (fun t => t.promoted_strategies) = some [] := by
  constructor <;> decide

/-! ### Claim C9 — the extractor is total and conservative -/

/-- When the marker does not occur in the content, `marker_tail` yields
nothing (the `if marker in content` guard fails). -/
theorem marker_tail_of_not_contains (marker content : PyStr)
    (h : pyContains marker content = false) :
    marker_tail marker content = none := by
  simp [marker_tail, h]

/-- The extractor succeeds whenever the history is non-empty. -/
theorem update_total (s : ResearchState) (last : Msg)
    (hg : s.messages.getLast? = some last) :
    ∃ t, update_state_from_messages s = some t := by
  unfold update_state_from_messages
  rw [hg]
  exact ⟨_, rfl⟩

/-- With no `RULED IN:` marker on the latest turn, the ruled-in set is
returned unchanged. -/
theorem update_no_ruled_in_marker (s t : ResearchState) (last : Msg)
    (hg : s.messages.getLast? = some last)
    (h : update_state_from_messages s = some t)
    (hA : marker_tail "RULED IN:".data last.content = none) :
    t.features_ruled_in = s.features_ruled_in := by
  unfold update_state_from_messages at h
  rw [hg] at h
  simp only [Option.some.injEq] at h
  subst h
  rcases marker_tail "RULED OUT:".data last.content with _ | tailB <;>
  rcases marker_tail "NEXT HYPOTHESIS:".data last.content with _ | tailC <;>
    simp [hA]

/-- With no `RULED OUT:` marker on the latest turn, the ruled-out set is
returned unchanged. -/
theorem update_no_ruled_out_marker (s t : ResearchState) (last : Msg)
    (hg : s.messages.getLast? = some last)
    (h : update_state_from_messages s = some t)
    (hB : marker_tail "RULED OUT:".data last.content = none) :
    t.features_ruled_out = s.features_ruled_out := by
  unfold update_state_from_messages at h
  rw [hg] at h
  simp only [Option.some.injEq] at h
  subst h
  rcases marker_tail "RULED IN:".data last.content with _ | tailA <;>
  rcases marker_tail "NEXT HYPOTHESIS:".data last.content with _ | tailC <;>
    simp [hB]

/-- With no `NEXT HYPOTHESIS:` marker on the latest turn, the current
hypothesis is returned unchanged. -/
theorem update_no_hypothesis_marker (s t : ResearchState) (last : Msg)
    (hg : s.messages.getLast? = some last)
    (h : update_state_from_messages s = some t)
    (hC : marker_tail "NEXT HYPOTHESIS:".data last.content = none) :
    t.current_hypothesis = s.current_hypothesis := by
  unfold update_state_from_messages at h
  rw [hg] at h
  simp only [Option.some.injEq] at h
  subst h
  rcases marker_tail "RULED IN:".data last.content with _ | tailA <;>
  rcases marker_tail "RULED OUT:".data last.content with _ | tailB <;>
    simp [hC]

/-- C9: on any state whose latest message exists (it carries the turn's
content), the state extractor returns normally — its only failure point
is an empty history — and a marker's absence (which covers malformed or
partially-matched markers, since matching is exact substring search)
leaves the corresponding field untouched. -/
theorem C9_extractor_total_and_conservative (s : ResearchState) (last : Msg)
    (hg : s.messages.getLast? = some last) :
    ∃ t, update_state_from_messages s = some t
      ∧ (pyContains "RULED IN:".data last.content = false →
          t.features_ruled_in = s.features_ruled_in)
      ∧ (pyContains "RULED OUT:".data last.content = false →
          t.features_ruled_out = s.features_ruled_out)
      ∧ (pyContains "NEXT HYPOTHESIS:".data last.content = false →
          t.current_hypothesis = s.current_hypothesis) := by
  obtain ⟨t, ht⟩ := update_total s last hg
  exact ⟨t, ht,
    fun hm => update_no_ruled_in_marker s t last hg ht
      (marker_tail_of_not_contains _ _ hm),
    fun hm => update_no_ruled_out_marker s t last hg ht
      (marker_tail_of_not_contains _ _ hm),
    fun hm => update_no_hypothesis_marker s t last hg ht
      (marker_tail_of_not_contains _ _ hm)⟩

/-- Witness for C9 at a concrete input: a turn with text but no
recognizable marker leaves every directive field untouched. -/
theorem C9_extractor_total_and_conservative_witness :
    ∃ t, update_state_from_messages sample_state = some t
      ∧ (pyContains "RULED IN:".data "no directives in this turn".data = false →
          t.features_ruled_in = sample_state.features_ruled_in)
      ∧ (pyContains "RULED OUT:".data "no directives in this turn".data = false →
          t.features_ruled_out = sample_state.features_ruled_out)
      ∧ (pyContains "NEXT HYPOTHESIS:".data "no directives in this turn".data = false →
          t.current_hypothesis = sample_state.current_hypothesis) :=
  C9_extractor_total_and_conservative sample_state
    ⟨"no directives in this turn".data, []⟩ (by decide)

/-! ### Evaluation engine (`backtester.py`) — triple-barrier labelling

Prices are modelled as rationals and a pandas series as a list of
(index label, value) pairs; the default integer index of a bare series
is the position.  `Series.idxmax()` on a boolean series returns the
index label of the first `True` entry, and, when every entry is `False`,
the label of the FIRST entry (the maximum of an all-`False` series).
Python then tests the label for truthiness; for the labels reached here
(positions `i+1` and later, or pandas timestamps, which are always
truthy) that test is `≠ 0`. -/

/-- `(boolean series).idxmax()`: label of the first `True` entry, else
the first label; pandas raises on an empty series, which cannot occur in
the labelling loop (the window has `max_holding ≥ 1` entries), so the
`(0, 0)` default is unreachable there. -/
def idxmax_bool (w : List (Nat × ℚ)) (p : ℚ → Bool) : Nat :=
  match w.find? (fun r => p r.2) with
  | some r => r.1
  | none => (w.headD (0, 0)).1

/-- The body of the `_triple_barrier_label` loop for one entry index `i`:
`future = close.iloc[i+1 : i+max_holding+1]`, the two `idxmax` calls, and
`if tp_hit and (not sl_hit or tp_hit <= sl_hit): 1 elif sl_hit: 0 else: 0`
(the last two branches both append 0). -/
def triple_barrier_label_at (close : List ℚ) (stop_loss take_profit : ℚ)
    (max_holding i : Nat) : Nat :=
  let entry := close.getD i 0
  let future := (close.enum.drop (i + 1)).take max_holding
  let tp_hit := idxmax_bool future (fun p => decide (p ≥ entry * (1 + take_profit)))
  let sl_hit := idxmax_bool future (fun p => decide (p ≤ entry * (1 - stop_loss)))
  if tp_hit ≠ 0 ∧ (sl_hit = 0 ∨ tp_hit ≤ sl_hit) then 1 else 0

/-- `_triple_barrier_label`: one label per index in
`range(len(close) - max_holding)`. -/
def triple_barrier_label (close : List ℚ) (stop_loss take_profit : ℚ)
    (max_holding : Nat) : List Nat :=
  (List.range (close.length - max_holding)).map
    (triple_barrier_label_at close stop_loss take_profit max_holding)

/-- On a constant price path whose barriers are never touched, every
labelled index gets label 1: both `idxmax` calls fall back to the first
window label `i+1`, which is truthy and satisfies `tp_hit <= sl_hit`. -/
theorem triple_barrier_label_at_const (c stop_loss take_profit : ℚ)
    (n max_holding i : Nat) (hmax : 1 ≤ max_holding) (hi : i + max_holding < n)
    (htp : ¬ c ≥ c * (1 + take_profit)) (hsl : ¬ c ≤ c * (1 - stop_loss)) :
    triple_barrier_label_at (List.replicate n c) stop_loss take_profit max_holding i = 1 := by
  have hin : i < n := by omega
  have hi1 : i + 1 < n := by omega
  unfold triple_barrier_label_at
  have hentry : (List.replicate n c).getD i 0 = c := by
    simp [List.getD_eq_getElem?_getD, List.getElem?_replicate, hin]
  rw [hentry]
  have hwin : ((List.replicate n c).enum.drop (i + 1)).take max_holding
      = ((i + 1, c) :: ((List.replicate n c).enum.drop (i + 2))).take max_holding := by
    rw [List.drop_eq_getElem_cons (by simpa using hi1)]
    simp [List.getElem_enum, List.getElem_replicate]
  have hmem : ∀ x ∈ ((List.replicate n c).enum.drop (i + 1)).take max_holding, x.2 = c := by
    intro x hx
    have hx1 : x ∈ (List.replicate n c).enum := List.mem_of_mem_drop (List.mem_of_mem_take hx)
    have := List.snd_mem_of_mem_enum (l := List.replicate n c) hx1
    exact List.eq_of_mem_replicate this
  have hfindtp : List.find? (fun r => decide (r.2 ≥ c * (1 + take_profit)))
      (((List.replicate n c).enum.drop (i + 1)).take max_holding) = none := by
    rw [List.find?_eq_none]
    intro x hx
    rw [hmem x hx]
    simpa using htp
  have hfindsl : List.find? (fun r => decide (r.2 ≤ c * (1 - stop_loss)))
      (((List.replicate n c).enum.drop (i + 1)).take max_holding) = none := by
    rw [List.find?_eq_none]
    intro x hx
    rw [hmem x hx]
    simpa using hsl
  have hhead : (((List.replicate n c).enum.drop (i + 1)).take max_holding).headD (0, 0)
      = (i + 1, c) := by
    rw [hwin]
    obtain ⟨m, rfl⟩ : ∃ m, max_holding = m + 1 := ⟨max_holding - 1, by omega⟩
    simp
  simp only [idxmax_bool, hfindtp, hfindsl, hhead]
  simp

/-! ### Claim C1 — triple-barrier labels on a flat path -/

/-- C1: with the backtester's barriers (stop-loss 3%, take-profit 6%) and
horizon 48, a price path that stays flat at 100 for the entire horizon is
labelled 1 at every labelled index, not 0: with no `True` entry, both
`idxmax` calls return the window's first index label, which is truthy,
and the tie `tp_hit <= sl_hit` then favours profit, so the time-barrier
branch of the source is unreachable.  This contradicts the claimed
time-barrier exit (label 0). -/
theorem C1_flat_path_labels_one :
    triple_barrier_label (List.replicate 50 (100 : ℚ)) (3/100) (6/100) 48 = [1, 1] := by
  have h0 := triple_barrier_label_at_const 100 (3/100) (6/100) 50 48 0
    (by norm_num) (by norm_num) (by norm_num) (by norm_num)
  have h1 := triple_barrier_label_at_const 100 (3/100) (6/100) 50 48 1
    (by norm_num) (by norm_num) (by norm_num) (by norm_num)
  have hlen : (List.replicate 50 (100 : ℚ)).length - 48 = 2 := by simp
  have hrange : List.range 2 = [0, 1] := by simp [List.range_succ]
  rw [triple_barrier_label, hlen, hrange]
  simp only [List.map_cons, List.map_nil]
  rw [h0, h1]

/-! ### Claim C2 — verdict policy of `_aggregate_results` -/

/-- The verdict rule at the end of `_aggregate_results`:
`promote` on `avg_sharpe > 1.5 and avg_drawdown > -0.12 and
overfitting_score < 0.5`, else `iterate` on `avg_sharpe > 0.8`, else
`discard`. -/
def determine_verdict (avg_sharpe avg_drawdown overfitting_score : ℚ) : String :=
  if avg_sharpe > 1.5 ∧ avg_drawdown > -0.12 ∧ overfitting_score < 0.5 then "promote"
  else if avg_sharpe > 0.8 then "iterate"
  else "discard"

/-- Counterexample to C2 as stated: at Sharpe 1.6, drawdown exactly
−0.12 and overfitting 0.3 the claim demands `promote` (drawdown "no
worse than −0.12, including exactly −0.12"), but the source's comparison
is strict, so the verdict is `iterate`. -/
theorem C2_boundary_counterexample :
    determine_verdict 1.6 (-0.12) 0.3 = "iterate"
    ∧ determine_verdict 1.6 (-0.12) 0.3 ≠ "promote" := by
  have h : determine_verdict 1.6 (-0.12) 0.3 = "iterate" := by
    unfold determine_verdict
    norm_num
  exact ⟨h, by rw [h]; decide⟩

/-- C2 (amended): the verdict is `promote` exactly when Sharpe > 1.5 AND
drawdown is strictly greater than −0.12 AND overfitting < 0.5; otherwise
`iterate` exactly when Sharpe > 0.8; otherwise `discard`, in that
order. -/
theorem C2_amended_verdict_policy (s d o : ℚ) :
    (determine_verdict s d o = "promote" ↔ s > 1.5 ∧ d > -0.12 ∧ o < 0.5)
    ∧ (determine_verdict s d o = "iterate" ↔
        ¬(s > 1.5 ∧ d > -0.12 ∧ o < 0.5) ∧ s > 0.8)
    ∧ (determine_verdict s d o = "discard" ↔
        ¬(s > 1.5 ∧ d > -0.12 ∧ o < 0.5) ∧ ¬(s > 0.8)) := by
  have hpi : ("promote" : String) ≠ "iterate" := by decide
  have hpd : ("promote" : String) ≠ "discard" := by decide
  have hid : ("iterate" : String) ≠ "discard" := by decide
  unfold determine_verdict
  split_ifs with h1 h2 <;>
    exact ⟨by simp_all, by simp_all, by simp_all⟩

/-! ### Portfolio simulation calls (`vbt.Portfolio.from_signals`)

The vectorbt simulation itself is an external collaborator; what the
backtester controls is which arguments it passes.  A call is therefore
recorded as a structure of its arguments, and the portfolio statistics
(`sharpe_ratio`, `max_drawdown`, ...) are abstract functions of that
call, passed in as parameters. -/

/-- `FEES = 0.001` (0.1% per trade). -/
def FEES : ℚ := 0.001

/-- `SLIPPAGE = 0.0005` (0.05%). -/
def SLIPPAGE : ℚ := 0.0005

/-- The arguments of one `vbt.Portfolio.from_signals` call.  Series are
(index label, value) lists; arguments the source leaves at their
defaults are `none`. -/
structure PortfolioCall where
  close : List (Nat × ℚ)
  entries : List (Nat × Bool)
  exits : List (Nat × Bool)
  fees : ℚ
  slippage : Option ℚ
  init_cash : Option ℚ
  sl_stop : Option ℚ
  tp_stop : Option ℚ
deriving Repr, DecidableEq

/-- The in-sample portfolio call of `_aggregate_results`:
`from_signals(results[0]["pf"].close, entries=Series(True, X_train.index),
exits=Series(False, X_train.index), fees=FEES)` — the close series is the
first asset's held-out portfolio close, and slippage, initial cash and
the stop-loss/take-profit hard exits are all left at their defaults. -/
def in_sample_portfolio_call (first_pf_close : List (Nat × ℚ))
    (train_index : List Nat) : PortfolioCall :=
  { close := first_pf_close
    entries := train_index.map (fun i => (i, true))
    exits := train_index.map (fun i => (i, false))
    fees := FEES
    slippage := none
    init_cash := none
    sl_stop := none
    tp_stop := none }

/-- Follows the spec's words, for comparison with the source: "an
in-sample Sharpe computed by simulating the same strategy's hard exits
over the training period with an always-long baseline policy (no model
gating)" — always-long entries over the training-period close, with the
strategy's stop-loss/take-profit percentages as hard exits. -/
def spec_in_sample_portfolio_call (train_close : List (Nat × ℚ))
    (train_index : List Nat) (stop_loss_pct take_profit_pct : ℚ) : PortfolioCall :=
  { close := train_close
    entries := train_index.map (fun i => (i, true))
    exits := train_index.map (fun i => (i, false))
    fees := FEES
    slippage := none
    init_cash := none
    sl_stop := some stop_loss_pct
    tp_stop := some take_profit_pct }

/-- Per-asset record appended to `all_results` in `run_backtest` (the
trained model and `y_test` are carried by the source but unused by the
aggregation logic embedded here). -/
structure AssetEval where
  asset : String
  pf : PortfolioCall
  X_train : List (Nat × ℚ)
  X_test : List (Nat × ℚ)
  y_train : List (Nat × Nat)
  y_test : List (Nat × Nat)
deriving Repr, DecidableEq

/-- `np.mean` of a list of rationals. -/
def npMean (xs : List ℚ) : ℚ := xs.sum / xs.length

/-- The aggregation core of `_aggregate_results`, parameterised by the
external portfolio statistics: mean Sharpe and drawdown across assets,
the overfitting score `abs(avg_sharpe - in_sample_pf.sharpe_ratio())`
built from the first asset's portfolio close and training index, and the
verdict.  `results[0]` raises `IndexError` on an empty result list,
modelled by the `Option`. -/
def aggregate_outcome (sharpe_of drawdown_of : PortfolioCall → ℚ)
    (results : List AssetEval) : Option (ℚ × ℚ × ℚ × String) :=
  match results with
  | [] => none
  | first :: _ =>
    let avg_sharpe := npMean (results.map (fun r => sharpe_of r.pf))
    let avg_drawdown := npMean (results.map (fun r => drawdown_of r.pf))
    let overfitting_score :=
      |avg_sharpe - sharpe_of (in_sample_portfolio_call first.pf.close
        (first.X_train.map Prod.fst))|
    some (avg_sharpe, avg_drawdown, overfitting_score,
      determine_verdict avg_sharpe avg_drawdown overfitting_score)

/-- A Sharpe functional that only looks at whether hard exits were
passed to the simulation: it separates the source's in-sample call from
the spec's described one. -/
def sharpe_probe : PortfolioCall → ℚ :=
  fun c => if c.sl_stop = none then 0 else 1

/-- Counterexample to C4: instantiating the abstract Sharpe statistic
with `sharpe_probe` and a one-asset result whose training close differs
from its held-out portfolio close, the overfitting score computed by
`_aggregate_results` (1, since its in-sample call carries no stops)
differs from the score the claim describes (0, since simulating the hard
exits over the training-period prices carries the stops);
moreover the source's in-sample call carries no stop-loss/take-profit
and uses the held-out close, while the claim's carries both stops and
the training close. -/
theorem C4_counterexample :
    (aggregate_outcome sharpe_probe (fun _ => 0)
        [{ asset := "BTC/USDT"
           pf := { close := [(7, 10)], entries := [], exits := [],
                   fees := FEES, slippage := some SLIPPAGE,
                   init_cash := some 10000, sl_stop := some (3/100),
                   tp_stop := some (6/100) }
           X_train := [(0, 5)], X_test := [(7, 10)],
           y_train := [(0, 1)], y_test := [] }]).map (fun out => out.2.2.1) = some 1
    ∧ |(1 : ℚ) - sharpe_probe (spec_in_sample_portfolio_call [(0, 5)] [0] (3/100) (6/100))| = 0
    ∧ (in_sample_portfolio_call [(7, 10)] [0]).sl_stop = none
    ∧ (spec_in_sample_portfolio_call [(0, 5)] [0] (3/100) (6/100)).sl_stop = some (3/100)
    ∧ (in_sample_portfolio_call [(7, 10)] [0]).close
        ≠ (spec_in_sample_portfolio_call [(0, 5)] [0] (3/100) (6/100)).close := by
  refine ⟨?_, ?_, rfl, rfl, ?_⟩
  · simp [aggregate_outcome, in_sample_portfolio_call, sharpe_probe, npMean]
  · simp [spec_in_sample_portfolio_call, sharpe_probe]
  · simp [in_sample_portfolio_call, spec_in_sample_portfolio_call]

/-- C4 (amended): the overfitting score produced by `_aggregate_results`
is the absolute difference between the held-out aggregate Sharpe (the
mean of the per-asset portfolio Sharpes) and the Sharpe of a portfolio
simulated on the FIRST ASSET'S HELD-OUT portfolio close series with
always-long entries indexed by the training rows, fees only — WITHOUT
the strategy's stop-loss/take-profit hard exits and NOT on
training-period prices. -/
theorem C4_amended_overfitting_score (sharpe_of drawdown_of : PortfolioCall → ℚ)
    (first : AssetEval) (rest : List AssetEval) (out : ℚ × ℚ × ℚ × String)
    (h : aggregate_outcome sharpe_of drawdown_of (first :: rest) = some out) :
    out.2.2.1 =
      |npMean ((first :: rest).map (fun r => sharpe_of r.pf)) -
        sharpe_of (in_sample_portfolio_call first.pf.close
          (first.X_train.map Prod.fst))|
    ∧ (in_sample_portfolio_call first.pf.close (first.X_train.map Prod.fst)).close
        = first.pf.close
    ∧ (in_sample_portfolio_call first.pf.close (first.X_train.map Prod.fst)).sl_stop
        = none
    ∧ (in_sample_portfolio_call first.pf.close (first.X_train.map Prod.fst)).tp_stop
        = none
    ∧ (in_sample_portfolio_call first.pf.close (first.X_train.map Prod.fst)).entries
        = (first.X_train.map Prod.fst).map (fun i => (i, true)) := by
  refine ⟨?_, rfl, rfl, rfl, rfl⟩
  simp only [aggregate_outcome, Option.some.injEq] at h
  rw [← h]

/-- A constant Sharpe statistic used to instantiate the amended C4. -/
def c4_sharpe : PortfolioCall → ℚ := fun _ => 1

/-- A constant drawdown statistic used to instantiate the amended C4. -/
def c4_drawdown : PortfolioCall → ℚ := fun _ => 0

/-- A concrete one-asset evaluation record. -/
def c4_eval : AssetEval :=
  { asset := "ETH/USDT"
    pf := { close := [(2, 11)], entries := [(2, true)], exits := [(2, false)],
            fees := FEES, slippage := some SLIPPAGE, init_cash := some 10000,
            sl_stop := some (3/100), tp_stop := some (6/100) }
    X_train := [(0, 9)]
    X_test := [(2, 11)]
    y_train := [(0, 1)]
    y_test := [] }

/-- The aggregate outcome on the one-asset record above. -/
def c4_out : ℚ × ℚ × ℚ × String :=
  (aggregate_outcome c4_sharpe c4_drawdown [c4_eval]).getD (0, 0, 0, "")

/-- Witness for the amended C4 at a concrete one-asset result. -/
theorem C4_amended_overfitting_score_witness :
    c4_out.2.2.1 =
      |npMean ([c4_eval].map (fun r => c4_sharpe r.pf)) -
        c4_sharpe (in_sample_portfolio_call c4_eval.pf.close
          (c4_eval.X_train.map Prod.fst))|
    ∧ (in_sample_portfolio_call c4_eval.pf.close (c4_eval.X_train.map Prod.fst)).close
        = c4_eval.pf.close
    ∧ (in_sample_portfolio_call c4_eval.pf.close (c4_eval.X_train.map Prod.fst)).sl_stop
        = none
    ∧ (in_sample_portfolio_call c4_eval.pf.close (c4_eval.X_train.map Prod.fst)).tp_stop
        = none
    ∧ (in_sample_portfolio_call c4_eval.pf.close (c4_eval.X_train.map Prod.fst)).entries
        = (c4_eval.X_train.map Prod.fst).map (fun i => (i, true)) :=
  C4_amended_overfitting_score c4_sharpe c4_drawdown c4_eval [] c4_out rfl

/-! ### The walk-forward pipeline of `run_backtest`

A feature-enriched price frame is modelled as a list of rows
(timestamp label, close).  The feature VALUES of `df[config.features]`
are produced by the external `ta`/numpy indicator registry and never
inspected by the backtester's control logic, so a row is represented by
its index label together with the close price; only row identity and
count matter to the claims below. -/

/-- A time-indexed frame: rows of (timestamp label, close price). -/
abbrev Frame := List (Nat × ℚ)

/-- The names registered in `features.py`'s `FEATURE_REGISTRY`, in
registration order. -/
def FEATURE_REGISTRY : List String :=
  ["rsi_14", "rsi_7", "macd_signal", "macd_diff", "atr_14", "bb_width",
   "volume_zscore", "obv", "vwap_distance", "log_return",
   "rolling_volatility_24", "funding_rate", "open_interest_change"]

/-- The fields of `StrategyConfig` consumed by `run_backtest`. -/
structure StrategyConfig where
  name : String
  features : List String
  assets : List String
  timeframe : String
  lookback_days : Nat
  stop_loss_pct : ℚ
  take_profit_pct : ℚ
deriving Repr, DecidableEq

/-- `compute_features`: raises `ValueError("Unknown feature: ...")` at
the first requested name missing from the registry, otherwise computes
every feature column and ends with `result.dropna()`.  The indicator
columns come from external libraries; their warmup windows leave NaNs in
a leading prefix of rows, so `dropna()` is modelled as dropping the
first `dropped` rows, with `dropped` (a library-determined count)
supplied as a parameter. -/
def compute_features (df : Frame) (feature_names : List String)
    (dropped : Nat) : Except String Frame :=
  match feature_names.find? (fun name => decide (name ∉ FEATURE_REGISTRY)) with
  | some bad => .error ("Unknown feature: " ++ bad)
  | none => .ok (df.drop dropped)

/-- The label series built in `run_backtest`:
`pd.Series(labels, index=close.index[:len(labels)])` for the
triple-barrier labels of the feature frame's close column with
`max_holding=48`. -/
def label_series (df : Frame) (stop_loss take_profit : ℚ) : List (Nat × Nat) :=
  List.zip (df.map Prod.fst)
    (triple_barrier_label (df.map Prod.snd) stop_loss take_profit 48)

/-- `int(len(X) * (1 - test_ratio))` at the default ratio 0.3; the float
product is exact at the lengths used here. -/
def wf_split_index (n : Nat) : Nat := n * 7 / 10

/-- `_walk_forward_split`: both `X` and `y` are cut at the single
position `int(len(X) * 0.7)` computed from `X` alone, and the test index
is `X.iloc[split:].index`. -/
def walk_forward_split (X : Frame) (y : List (Nat × Nat)) :
    Frame × Frame × List (Nat × Nat) × List (Nat × Nat) × List Nat :=
  let split := wf_split_index X.length
  (X.take split, X.drop split, y.take split, y.drop split,
    (X.drop split).map Prod.fst)

/-- The per-asset loop body of `run_backtest`, sequenced over
`config.assets`.  External collaborators enter as parameters: `fetch`
models `fetch_ohlcv` (with `none` for its
`ValueError("No data returned for ...")`), `dropped` the indicator
warmup removed by `dropna`, and `prob_of` the trained LightGBM model's
`predict_proba` outputs on the held-out rows.  `validate_ohlcv` only
logs warnings and continues, so it has no effect here.  Any exception
aborts the remaining assets — there is no try/except in the source. -/
def run_assets (fetch : String → Option Frame) (dropped : Nat)
    (prob_of : String → List ℚ) (config : StrategyConfig) :
    List String → Except String (List AssetEval)
  | [] => .ok []
  | asset :: rest =>
    match fetch asset with
    | none => .error ("No data returned for " ++ asset ++ " " ++ config.timeframe)
    | some raw =>
      match compute_features raw config.features dropped with
      | .error e => .error e
      | .ok df =>
        let labels := label_series df config.stop_loss_pct config.take_profit_pct
        let (X_train, X_test, y_train, y_test, dates_test) :=
          walk_forward_split df labels
        let probs := prob_of asset
        let entries := List.zip dates_test (probs.map (fun p => decide (p > 0.65)))
        let exits := List.zip dates_test (probs.map (fun p => decide (p < 0.35)))
        let pf : PortfolioCall :=
          { close := X_test
            entries := entries
            exits := exits
            fees := FEES
            slippage := some SLIPPAGE
            init_cash := some 10000
            sl_stop := some config.stop_loss_pct
            tp_stop := some config.take_profit_pct }
        match run_assets fetch dropped prob_of config rest with
        | .error e => .error e
        | .ok rs =>
          .ok ({ asset := asset, pf := pf, X_train := X_train, X_test := X_test,
                 y_train := y_train, y_test := y_test } :: rs)

/-- `run_backtest`: the per-asset loop followed by `_aggregate_results`.
The portfolio statistics (`sharpe_of`, `drawdown_of`) are the external
vectorbt collaborators.  An exception anywhere fails the whole call. -/
def run_backtest (fetch : String → Option Frame) (dropped : Nat)
    (prob_of : String → List ℚ) (sharpe_of drawdown_of : PortfolioCall → ℚ)
    (config : StrategyConfig) : Except String (ℚ × ℚ × ℚ × String) :=
  match run_assets fetch dropped prob_of config config.assets with
  | .error e => .error e
  | .ok results =>
    match aggregate_outcome sharpe_of drawdown_of results with
    | none => .error "IndexError: list index out of range"
    | some out => .ok out

/-! ### Claim C8 — per-asset data failures fail the whole call -/

/-- Inversion of a successful per-asset loop: every asset produced data,
and (unless the asset list was empty, so that the loop body never ran)
every requested feature name is in the registry. -/
theorem run_assets_ok_inv (fetch : String → Option Frame) (dropped : Nat)
    (prob_of : String → List ℚ) (config : StrategyConfig) :
    ∀ (l : List String) (evals : List AssetEval),
      run_assets fetch dropped prob_of config l = .ok evals →
      (∀ a ∈ l, (fetch a).isSome)
      ∧ (l = [] ∨ ∀ f ∈ config.features, f ∈ FEATURE_REGISTRY) := by
  intro l
  induction l with
  | nil => intro evals _; exact ⟨by simp, Or.inl rfl⟩
  | cons asset rest ih =>
    intro evals h
    rw [run_assets] at h
    cases hf : fetch asset with
    | none => simp only [hf] at h; exact Except.noConfusion h
    | some raw =>
      simp only [hf] at h
      cases hc : compute_features raw config.features dropped with
      | error e => simp only [hc] at h; exact Except.noConfusion h
      | ok df =>
        simp only [hc] at h
        have hreg : ∀ f ∈ config.features, f ∈ FEATURE_REGISTRY := by
          intro f hfmem
          unfold compute_features at hc
          cases hfind : config.features.find? (fun name => decide (name ∉ FEATURE_REGISTRY)) with
          | some bad => rw [hfind] at hc; exact Except.noConfusion hc
          | none =>
            have := List.find?_eq_none.mp hfind f hfmem
            simpa using this
        cases hrest : run_assets fetch dropped prob_of config rest with
        | error e => simp only [hrest] at h; exact Except.noConfusion h
        | ok rs =>
          simp only [hrest] at h
          obtain ⟨hall, _⟩ := ih rs hrest
          refine ⟨?_, Or.inr hreg⟩
          intro a ha
          rcases List.mem_cons.mp ha with rfl | ha2
          · simp [hf]
          · exact hall a ha2

/-- C8: if any configured asset yields no data, or the configuration
requests a feature name absent from the registry (with at least one
asset, so the loop body runs), the whole `run_backtest` call fails with
an error — no result or verdict is produced from the other assets'
partial results. -/
theorem C8_data_failure_fails_run (fetch : String → Option Frame)
    (dropped : Nat) (prob_of : String → List ℚ)
    (sharpe_of drawdown_of : PortfolioCall → ℚ) (config : StrategyConfig)
    (h : (∃ a ∈ config.assets, fetch a = none)
      ∨ (config.assets ≠ [] ∧ ∃ f ∈ config.features, f ∉ FEATURE_REGISTRY)) :
    ∃ msg, run_backtest fetch dropped prob_of sharpe_of drawdown_of config
      = .error msg := by
  unfold run_backtest
  cases hr : run_assets fetch dropped prob_of config config.assets with
  | error e => exact ⟨e, rfl⟩
  | ok results =>
    exfalso
    obtain ⟨hall, hreg⟩ := run_assets_ok_inv fetch dropped prob_of config
      config.assets results hr
    rcases h with ⟨a, ha, hnone⟩ | ⟨hne, f, hf, hnreg⟩
    · have := hall a ha
      rw [hnone] at this
      exact absurd this (by simp)
    · rcases hreg with hemp | hAllReg
      · exact hne hemp
      · exact hnreg (hAllReg f hf)

/-- Witness for C8: one asset for which the fetch returns no data. -/
theorem C8_data_failure_fails_run_witness :
    ∃ msg, run_backtest (fun _ => none) 14 (fun _ => [])
      (fun _ => 0) (fun _ => 0)
      { name := "trend-follow-v1", features := ["rsi_14"],
        assets := ["BTC/USDT"], timeframe := "1h", lookback_days := 730,
        stop_loss_pct := 3/100, take_profit_pct := 6/100 } = .error msg :=
  C8_data_failure_fails_run (fun _ => none) 14 (fun _ => [])
    (fun _ => 0) (fun _ => 0) _
    (Or.inl ⟨"BTC/USDT", by simp, rfl⟩)

/-! ### Claim C10 — walk-forward split vs. label-series alignment -/

/-- The first components of a zip are the head prefix of the first list,
as long as the second. -/
theorem zip_map_fst {α β : Type} (A : List α) (B : List β) :
    (A.zip B).map Prod.fst = A.take B.length := by
  induction A generalizing B with
  | nil => simp
  | cons a as ih =>
    cases B with
    | nil => simp
    | cons b bs => simp [ih]

/-- The label series is shorter than the feature frame by the horizon 48
(the final horizon-many rows cannot be labelled). -/
theorem label_series_length (df : Frame) (stop_loss take_profit : ℚ) :
    (label_series df stop_loss take_profit).length = df.length - 48 := by
  simp only [label_series, List.length_zip, triple_barrier_label,
    List.length_map, List.length_range]
  omega

/-- The label series carries the LEADING index labels of the feature
frame: position `i` of the labels and position `i` of the frame share
one timestamp. -/
theorem label_series_map_fst (df : Frame) (stop_loss take_profit : ℚ) :
    (label_series df stop_loss take_profit).map Prod.fst
      = (df.map Prod.fst).take (df.length - 48) := by
  unfold label_series
  rw [zip_map_fst]
  simp [triple_barrier_label]

/-- The training slice of the features is the prefix of `X` up to the
split position computed from `X`'s length. -/
theorem walk_forward_split_X_train (X : Frame) (y : List (Nat × Nat)) :
    (walk_forward_split X y).1 = X.take (wf_split_index X.length) := rfl

/-- The training slice of the labels is the prefix of `y` up to the SAME
position, computed from `X`'s length regardless of `y`'s. -/
theorem walk_forward_split_y_train (X : Frame) (y : List (Nat × Nat)) :
    (walk_forward_split X y).2.2.1 = y.take (wf_split_index X.length) := rfl

/-- A flat 160-row hourly frame (indices 0..159, close 100). -/
def flat_frame_160 : Frame := (List.range 160).map (fun i => (i, (100 : ℚ)))

/-- Counterexample to C10's alignment assertion: on a 160-row frame the
feature matrix `X` (160 rows) and the label series `y` (112 rows) have
different lengths, yet after `_walk_forward_split` cuts both at
`int(160·0.7) = 112` the training rows of `X` and of `y` carry exactly
the same timestamps position by position — `X_train` aligns with
`y_train` even though `len(X) ≠ len(y)`, because the label series shares
the frame's leading index. -/
theorem C10_alignment_counterexample :
    flat_frame_160.length
        ≠ (label_series flat_frame_160 (3/100) (6/100)).length
    ∧ ((walk_forward_split flat_frame_160
          (label_series flat_frame_160 (3/100) (6/100))).1).map Prod.fst
      = ((walk_forward_split flat_frame_160
          (label_series flat_frame_160 (3/100) (6/100))).2.2.1).map Prod.fst := by
  have hflen : flat_frame_160.length = 160 := by
    simp [flat_frame_160]
  have hylen : (label_series flat_frame_160 (3/100) (6/100)).length = 112 := by
    rw [label_series_length, hflen]
  have hsplit : wf_split_index flat_frame_160.length = 112 := by
    rw [hflen]
    norm_num [wf_split_index]
  have hmapfst : flat_frame_160.map Prod.fst = List.range 160 := by
    unfold flat_frame_160
    rw [List.map_map]
    exact List.map_id (List.range 160)
  constructor
  · rw [hflen, hylen]
    omega
  · rw [walk_forward_split_X_train, walk_forward_split_y_train, hsplit,
      List.map_take, List.map_take, hmapfst,
      label_series_map_fst, hflen, hmapfst]
    simp [List.take_take]

/-- C10 (amended): `_walk_forward_split` cuts both the feature frame and
the label series at the single position `int(len(X)·0.7)` computed from
`X`'s length alone; in `run_backtest` the label series is built on the
SAME post-`dropna` frame as the features, so it is shorter than `X` by
exactly the horizon 48 while sharing `X`'s leading timestamps — equal
positions in `X` and `y` (hence in `X_train` and `y_train`, whenever the
split index is at most `len(y)`) carry the same timestamp even though
the lengths differ; the mismatch surfaces only as the label series'
missing tail. -/
theorem C10_amended_split_and_alignment (df : Frame) (stop_loss take_profit : ℚ) :
    (label_series df stop_loss take_profit).length = df.length - 48
    ∧ (label_series df stop_loss take_profit).map Prod.fst
        = (df.map Prod.fst).take (df.length - 48)
    ∧ (∀ y : List (Nat × Nat),
        walk_forward_split df y
          = (df.take (wf_split_index df.length), df.drop (wf_split_index df.length),
             y.take (wf_split_index df.length), y.drop (wf_split_index df.length),
             (df.drop (wf_split_index df.length)).map Prod.fst)) :=
  ⟨label_series_length df stop_loss take_profit,
   label_series_map_fst df stop_loss take_profit,
   fun _ => rfl⟩
